import Mathlib

set_option linter.unusedVariables false

/-!
Shallow embedding of the repository phl-courts-scraper-batch, source file
src/phl_courts_scraper_batch/aws.py. Python strings that undergo splitting
and joining are modelled as lists of characters; str.split("/") and
"/".join(...) become splitSlash and joinSlash below. Dynamic values coming
back from the cluster client are modelled by PyVal, and Python exceptions by
PyErr, so that the evaluation order and short-circuiting of the source can
be reproduced faithfully.
-/

/-- Python s.split("/") for the one-character separator: separators are never
merged, empty fields are kept, and splitting the empty string yields one
empty field. -/
def splitSlash : List Char → List (List Char)
  | [] => [[]]
  | c :: cs =>
    if c = '/' then [] :: splitSlash cs
    else
      match splitSlash cs with
      | [] => [[c]]
      | r :: rs => (c :: r) :: rs

/-- Python "/".join(parts). -/
def joinSlash : List (List Char) → List Char
  | [] => []
  | [x] => x
  | x :: y :: ys => x ++ '/' :: joinSlash (y :: ys)

theorem splitSlash_ne_nil (xs : List Char) : splitSlash xs ≠ [] := by
  cases xs with
  | nil => simp [splitSlash]
  | cons c cs =>
    by_cases h : c = '/'
    · simp [splitSlash, h]
    · cases hs : splitSlash cs with
      | nil => simp [splitSlash, h, hs]
      | cons r rs => simp [splitSlash, h, hs]

theorem splitSlash_cons_slash (ys : List Char) :
    splitSlash ('/' :: ys) = [] :: splitSlash ys := by
  simp [splitSlash]

theorem splitSlash_append_noslash (xs ys : List Char) (h : '/' ∉ xs) :
    splitSlash (xs ++ '/' :: ys) = xs :: splitSlash ys := by
  induction xs with
  | nil => simpa using splitSlash_cons_slash ys
  | cons c cs ih =>
    have hc : c ≠ '/' := by
      intro hh
      exact h (by simp [hh])
    have hcs : '/' ∉ cs := fun hm => h (List.mem_cons_of_mem _ hm)
    have hrec := ih hcs
    simp only [List.cons_append, splitSlash, if_neg hc, List.append_eq, hrec]

theorem joinSlash_cons_cons (a b : List Char) (l : List (List Char)) :
    joinSlash (a :: b :: l) = a ++ '/' :: joinSlash (b :: l) := rfl

theorem joinSlash_splitSlash (xs : List Char) : joinSlash (splitSlash xs) = xs := by
  induction xs with
  | nil => rfl
  | cons c cs ih =>
    obtain ⟨r, rs, hrs⟩ : ∃ r rs, splitSlash cs = r :: rs := by
      cases hs : splitSlash cs with
      | nil => exact absurd hs (splitSlash_ne_nil cs)
      | cons r rs => exact ⟨r, rs, rfl⟩
    by_cases h : c = '/'
    · subst h
      rw [splitSlash_cons_slash, hrs, joinSlash_cons_cons, ← hrs, ih]
      rfl
    · have hsplit : splitSlash (c :: cs) = (c :: r) :: rs := by
        simp only [splitSlash, if_neg h, hrs]
      rw [hsplit]
      cases rs with
      | nil =>
        have hr : r = cs := by
          have hj := ih
          rw [hrs] at hj
          exact hj
        show c :: r = c :: cs
        rw [hr]
      | cons r2 rs2 =>
        have hcs : r ++ '/' :: joinSlash (r2 :: rs2) = cs := by
          have hj := ih
          rw [hrs, joinSlash_cons_cons] at hj
          exact hj
        rw [joinSlash_cons_cons]
        show (c :: r) ++ '/' :: joinSlash (r2 :: rs2) = c :: cs
        rw [List.cons_append, hcs]

/-- The characters of the remote-realm marker s3://. -/
def s3Head : List Char := ['s', '3', ':', '/', '/']

/-- Embeds parse_aws_path (aws.py lines 15-21): bucket is path.split("/")[2]
and key is "/".join(path.split("/")[3:]). The result is none exactly where
Python would raise an IndexError, namely when the split has fewer than three
fields. -/
def parse_aws_path (path : List Char) : Option (List Char × List Char) :=
  match (splitSlash path)[2]? with
  | some bucket => some (bucket, joinSlash ((splitSlash path).drop 3))
  | none => none

theorem parse_aws_path_split (b k : List Char) (h : '/' ∉ b) :
    splitSlash (s3Head ++ b ++ '/' :: k)
      = ['s', '3', ':'] :: [] :: b :: splitSlash k := by
  have h3 : '/' ∉ ['s', '3', ':'] := by decide
  have e1 : s3Head ++ b ++ '/' :: k
      = ['s', '3', ':'] ++ '/' :: ('/' :: (b ++ '/' :: k)) := by
    simp [s3Head]
  rw [e1, splitSlash_append_noslash _ _ h3, splitSlash_cons_slash,
    splitSlash_append_noslash _ _ h]

/-- C10: for every path of the shape s3://bucket/key with a slash-free
bucket, parse_aws_path returns the pair (bucket, key), and re-attaching the
s3:// marker and rejoining with a slash reconstructs the original path. -/
theorem parse_aws_path_roundtrip (b k : List Char) (h : '/' ∉ b) :
    parse_aws_path (s3Head ++ b ++ '/' :: k) = some (b, k)
    ∧ ∀ B K, parse_aws_path (s3Head ++ b ++ '/' :: k) = some (B, K) →
        s3Head ++ B ++ '/' :: K = s3Head ++ b ++ '/' :: k := by
  have hsplit := parse_aws_path_split b k h
  have hmain : parse_aws_path (s3Head ++ b ++ '/' :: k) = some (b, k) := by
    simp only [parse_aws_path, hsplit, List.getElem?_cons_succ,
      List.getElem?_cons_zero, List.drop_succ_cons, List.drop_zero,
      joinSlash_splitSlash]
  refine ⟨hmain, ?_⟩
  intro B K hBK
  rw [hmain, Option.some.injEq, Prod.mk.injEq] at hBK
  rw [← hBK.1, ← hBK.2]

/-- Witness for parse_aws_path_roundtrip at a concrete bucket and key. -/
theorem parse_aws_path_roundtrip_witness :
    '/' ∉ "mybucket".data
    ∧ parse_aws_path (s3Head ++ "mybucket".data ++ '/' :: "a/b.json".data)
        = some ("mybucket".data, "a/b.json".data) :=
  ⟨by decide, (parse_aws_path_roundtrip "mybucket".data "a/b.json".data (by decide)).1⟩

/-- Insertion step of the sort below. -/
def insertBy {α : Type} (le : α → α → Bool) (x : α) : List α → List α
  | [] => [x]
  | y :: ys => if le x y then x :: y :: ys else y :: insertBy le x ys

/-- Stable insertion sort, modelling Python sorted(...) with its default
lexicographic string order. -/
def sortBy {α : Type} (le : α → α → Bool) : List α → List α
  | [] => []
  | x :: xs => insertBy le x (sortBy le xs)

theorem length_insertBy {α : Type} (le : α → α → Bool) (x : α) (l : List α) :
    (insertBy le x l).length = l.length + 1 := by
  induction l with
  | nil => rfl
  | cons y ys ih =>
    by_cases h : le x y
    · simp [insertBy, h]
    · simp [insertBy, h, ih]

theorem length_sortBy {α : Type} (le : α → α → Bool) (l : List α) :
    (sortBy le l).length = l.length := by
  induction l with
  | nil => rfl
  | cons x xs ih => simp [sortBy, length_insertBy, ih]

/-- Lexicographic comparison of character lists, the order Python uses when
comparing and sorting strings. -/
def charsLe : List Char → List Char → Bool
  | [], _ => true
  | _ :: _, [] => false
  | a :: as, b :: bs => if a < b then true else if b < a then false else charsLe as bs

/-- Python sorted(...) over strings. -/
def sortStrings (l : List String) : List String :=
  sortBy (fun a b => charsLe a.data b.data) l

/-- Python sorted(...) over paths given as character lists. -/
def sortPaths (l : List (List Char)) : List (List Char) :=
  sortBy charsLe l

/-- Python exception kinds raised along the embedded code paths. -/
inductive PyErr where
  | typeError (msg : String)
  | keyError (key : String)
  | indexError (msg : String)
  | valueError (msg : String)
  | fileNotFound (msg : String)
deriving DecidableEq

/-- Dynamic Python values, as returned by the boto3 cluster client: strings,
lists and string-keyed dicts. -/
inductive PyVal where
  | pyStr (s : String)
  | pyList (xs : List PyVal)
  | pyDict (kvs : List (String × PyVal))

/-- Python v[key] for a string key: a dict lookup succeeds or raises
KeyError; subscripting a list or a string with a string raises TypeError. -/
def getItem : PyVal → String → Except PyErr PyVal
  | .pyDict kvs, k =>
    match kvs.find? (fun e => e.1 == k) with
    | some e => .ok e.2
    | none => .error (.keyError k)
  | .pyList _, _ => .error (.typeError "list indices must be integers or slices, not str")
  | .pyStr _, _ => .error (.typeError "string indices must be integers")

/-- Python v[i] for an integer index. -/
def getIdx : PyVal → Nat → Except PyErr PyVal
  | .pyList xs, i =>
    match xs[i]? with
    | some v => .ok v
    | none => .error (.indexError "list index out of range")
  | .pyStr s, i =>
    match s.data[i]? with
    | some c => .ok (.pyStr (String.mk [c]))
    | none => .error (.indexError "string index out of range")
  | .pyDict _, i => .error (.keyError (toString i))

/-- Python len(v). -/
def pyLen : PyVal → Nat
  | .pyStr s => s.length
  | .pyList xs => xs.length
  | .pyDict kvs => kvs.length

/-- Coercion of a Python value expected to be a string. -/
def asStr : PyVal → Except PyErr String
  | .pyStr s => .ok s
  | _ => .error (.typeError "expected str")

/-- Modelled from the spec: APP_NAME is the application-name constant the
source imports from the package root, which is not included under src/; its
concrete value does not matter for any claim. -/
def APP_NAME : String := "phl-courts-scraper-batch"

/-- Job Specification (spec section 3): the arguments of AWS.submit_jobs,
aws.py lines 101-120. The field output_folder holds the folder resolved by
io.get_output_paths at lines 164-166 (the io module is outside src/; the
spec says the output folder is derived once and shared by all partitions). -/
structure JobSpec where
  flavor : String
  dataset : String
  search_by : Option String
  tag : Option String
  dry_run : Bool
  sample : Option Nat
  log_freq : Nat
  seed : Nat
  errors : String
  sleep : Nat
  interval : Nat
  time_limit : Nat
  output_folder : String
  debug : Bool
  ntasks : Nat
deriving DecidableEq

/-- Base command, aws.py lines 136-169: fixed tokens and flags, then the
optional flags in source order, then the output-folder flag. -/
def baseCommand (s : JobSpec) : List String :=
  (["run", APP_NAME, "scrape", s.flavor, s.dataset,
    "--nprocs=" ++ toString s.ntasks,
    "--sleep=" ++ toString s.sleep,
    "--errors=" ++ s.errors,
    "--log-freq=" ++ toString s.log_freq,
    "--seed=" ++ toString s.seed,
    "--interval=" ++ toString s.interval,
    "--time-limit=" ++ toString s.time_limit]
    ++ (match s.search_by with | some v => ["--search-by=" ++ v] | none => [])
    ++ (match s.sample with | some v => ["--sample=" ++ toString v] | none => [])
    ++ (match s.tag with | some v => ["--tag=" ++ v] | none => [])
    ++ (if s.dry_run then ["--dry-run"] else [])
    ++ (if s.debug then ["--debug"] else []))
  ++ ["--output-folder=" ++ s.output_folder]

/-- Commands sent to ecs.run_task by the launch loop, aws.py lines 171-192:
one command per partition index pid in range(0, ntasks), each the base
command with the flag --pid=pid appended. -/
def submittedCommands (s : JobSpec) : List (List String) :=
  (List.range s.ntasks).map (fun pid => baseCommand s ++ ["--pid=" ++ toString pid])

/-- One step of the provisioning check, aws.py lines 200-204. It mirrors the
expression not len(task["tasks"]) and len(task["tasks"]["failures"]) with the
short-circuit of the Python and-operator, then reads the failure reason. -/
def checkStep (failed : Bool) (task : PyVal) : Except PyErr Bool := do
  let tl ← getItem task "tasks"
  if pyLen tl = 0 then
    let fl ← getItem tl "failures"
    if pyLen fl ≠ 0 then
      let f0 ← getIdx fl 0
      let _reason ← getItem f0 "reason"
      pure true
    else
      pure failed
  else
    pure failed

/-- Provisioning check over all launch responses, aws.py lines 199-204. -/
def checkProvisioningFailed (tasks : List PyVal) : Except PyErr Bool :=
  tasks.foldlM checkStep false

/-- Trim to the successfully provisioned launches, aws.py line 207. -/
def trimSuccessful : List PyVal → Except PyErr (List PyVal)
  | [] => .ok []
  | t :: ts => do
    let tl ← getItem t "tasks"
    let rest ← trimSuccessful ts
    if pyLen tl = 0 then pure rest else pure (t :: rest)

/-- The arn of the first task handle of a launch response, as read at aws.py
lines 213 and 218. -/
def taskArnOf (t : PyVal) : Except PyErr String := do
  let tl ← getItem t "tasks"
  let t0 ← getIdx tl 0
  let arn ← getItem t0 "taskArn"
  asStr arn

/-- Stop loop, aws.py lines 211-214: tasks are stopped one at a time; the
arns passed to ecs.stop_task are recorded until an exception interrupts. -/
def stopLoop (ts : List PyVal) : List String × Option PyErr :=
  ts.foldl
    (fun acc t =>
      match acc.2 with
      | some _ => acc
      | none =>
        match taskArnOf t with
        | .ok a => (acc.1 ++ [a], none)
        | .error e => (acc.1, some e))
    ([], none)

/-- Effects of submit_jobs visible to the cluster backend: the commands
passed to ecs.run_task and the arns passed to ecs.stop_task. -/
structure SubmitEffects where
  runTaskCommands : List (List String)
  stoppedArns : List String

/-- Python return value of submit_jobs: None, a path string, or - what the
spec claims on the no-wait path - a list of launch results. -/
inductive PyRet where
  | pynone
  | pystr (s : String)
  | pylist (xs : List PyVal)

/-- AWS.submit_jobs, aws.py lines 101-248, through the provisioning phase.
The argument responses gives the ecs.run_task response for each partition
index; cont abstracts the completion wait, exit-code audit and reduction
performed on the task ids once provisioning fully succeeded (lines 217-248).
The launch loop always runs before the wait flag is consulted, so the
run_task commands are recorded in every branch. -/
def submitJobs (s : JobSpec) (wait : Bool) (responses : Nat → PyVal)
    (cont : List String → Except PyErr PyRet) :
    SubmitEffects × Except PyErr PyRet :=
  if wait then
    match checkProvisioningFailed ((List.range s.ntasks).map responses) with
    | .error e => (⟨submittedCommands s, []⟩, .error e)
    | .ok failed =>
      match trimSuccessful ((List.range s.ntasks).map responses) with
      | .error e => (⟨submittedCommands s, []⟩, .error e)
      | .ok trimmed =>
        if failed then
          match stopLoop trimmed with
          | (stops, some e) => (⟨submittedCommands s, stops⟩, .error e)
          | (stops, none) =>
            (⟨submittedCommands s, stops⟩,
              .error (.valueError "Error provisioning some tasks; all tasks stopped."))
        else
          match trimmed.mapM taskArnOf with
          | .error e => (⟨submittedCommands s, []⟩, .error e)
          | .ok ids => (⟨submittedCommands s, []⟩, cont ids)
  else
    (⟨submittedCommands s, []⟩, .ok PyRet.pynone)

/-- Launch response carrying one running task handle and no failures. -/
def goodResp : PyVal :=
  .pyDict [("tasks", .pyList [.pyDict [("taskArn", .pyStr "arn-0")]]),
    ("failures", .pyList [])]

/-- Launch response carrying zero task handles and one failure entry. -/
def badResp : PyVal :=
  .pyDict [("tasks", .pyList []),
    ("failures", .pyList [.pyDict [("reason", .pyStr "RESOURCE:MEMORY")]])]

/-- Concrete job specification used by the evaluation theorems. -/
def specA : JobSpec :=
  { flavor := "courts", dataset := "d", search_by := none, tag := none,
    dry_run := false, sample := none, log_freq := 50, seed := 42,
    errors := "ignore", sleep := 2, interval := 1, time_limit := 20,
    output_folder := "out/f", debug := false, ntasks := 2 }

/-- Launch responses where partition 0 provisions and partition 1 fails. -/
def c1Responses : Nat → PyVal := fun k => if k = 0 then goodResp else badResp

/-- C1: with wait=true and one launch reporting zero task handles plus a
failure entry, submit_jobs stops no tasks and never raises the summary
ValueError. The provisioning check crashes first with a TypeError, because
aws.py line 201 subscripts the list task["tasks"] with the string
"failures", so the rollback branch at lines 210-215 is unreachable. -/
theorem submitJobs_provisioning_failure_typeError :
    (submitJobs specA true c1Responses (fun _ => .ok PyRet.pynone)).1.stoppedArns = []
    ∧ (submitJobs specA true c1Responses (fun _ => .ok PyRet.pynone)).2
        = .error (.typeError "list indices must be integers or slices, not str")
    ∧ PyErr.typeError "list indices must be integers or slices, not str"
        ≠ PyErr.valueError "Error provisioning some tasks; all tasks stopped." :=
  ⟨rfl, rfl, by decide⟩

/-- C2 counterexample: with wait=false, submit_jobs returns None at a
concrete job specification, not the list of launch results the claim
promises. -/
theorem submitJobs_nowait_counterexample :
    (submitJobs specA false (fun _ => goodResp) (fun _ => .ok PyRet.pynone)).2
      = .ok PyRet.pynone
    ∧ (Except.ok PyRet.pynone : Except PyErr PyRet)
        ≠ .ok (.pylist [goodResp, goodResp]) := by
  refine ⟨rfl, ?_⟩
  intro h
  cases h

/-- C2 amended: with wait=false, submit_jobs issues one launch request per
partition in index order, returns None immediately, and stops no tasks. -/
theorem submitJobs_nowait_returns_none (s : JobSpec) (responses : Nat → PyVal)
    (cont : List String → Except PyErr PyRet) :
    submitJobs s false responses cont
      = (⟨submittedCommands s, []⟩, .ok PyRet.pynone) := rfl

/-- C7: submit_jobs submits exactly N commands for a partition count N of at
least one, the k-th being the shared base command with the flag --pid=k
appended; dropping that last flag makes all N commands identical. -/
theorem submitJobs_command_per_partition (s : JobSpec) (h : 1 ≤ s.ntasks) :
    (∀ wait responses cont,
      (submitJobs s wait responses cont).1.runTaskCommands = submittedCommands s)
    ∧ (submittedCommands s).length = s.ntasks
    ∧ (∀ k, k < s.ntasks →
        (submittedCommands s)[k]? = some (baseCommand s ++ ["--pid=" ++ toString k]))
    ∧ (∀ k, k < s.ntasks →
        ((submittedCommands s)[k]?).map List.dropLast = some (baseCommand s)) := by
  have hget : ∀ k, k < s.ntasks →
      (submittedCommands s)[k]? = some (baseCommand s ++ ["--pid=" ++ toString k]) := by
    intro k hk
    have hk2 : k < (List.range s.ntasks).length := by simpa using hk
    simp [submittedCommands, List.getElem?_map, List.getElem?_eq_getElem hk2]
  refine ⟨?_, by simp [submittedCommands], hget, ?_⟩
  · intro wait responses cont
    unfold submitJobs
    split
    · split
      · rfl
      · split
        · rfl
        · split
          · split <;> rfl
          · split <;> rfl
    · rfl
  · intro k hk
    rw [hget k hk]
    simp

/-- Witness for submitJobs_command_per_partition at the concrete two-task
specification. -/
theorem submitJobs_command_per_partition_witness :
    1 ≤ specA.ntasks
    ∧ (submittedCommands specA).length = specA.ntasks
    ∧ (submittedCommands specA)[1]?
        = some (baseCommand specA ++ ["--pid=" ++ toString 1]) :=
  ⟨by decide, (submitJobs_command_per_partition specA (by decide)).2.1,
    (submitJobs_command_per_partition specA (by decide)).2.2.1 1 (by decide)⟩

/-- JSON values, as produced by json.loads. -/
inductive Json where
  | null
  | bool (b : Bool)
  | num (n : Int)
  | str (s : String)
  | arr (xs : List Json)
  | obj (kvs : List (String × Json))

/-- Python truthiness of a JSON value, deciding the filter in the
comprehension [v for _, v in r.items() if v] at aws.py line 297. -/
def truthy : Json → Bool
  | .null => false
  | .bool b => b
  | .num n => n != 0
  | .str s => s.length != 0
  | .arr xs => xs.length != 0
  | .obj kvs => kvs.length != 0

/-- Parsed content of one partition file. The reducer file format (spec
section 6) is a JSON array or a JSON object of records, so the document is
one of these two shapes. -/
inductive JsonDoc where
  | arr (xs : List Json)
  | obj (kvs : List (String × Json))

/-- Normalization at aws.py lines 296-297: a dict becomes the list of its
truthy values in insertion order; a list is used as is. -/
def loadList : JsonDoc → List Json
  | .arr xs => xs
  | .obj kvs => (kvs.map Prod.snd).filter (fun v => truthy v)

/-- Accumulation over the json files of one pair, aws.py lines 286-303:
results starts as None, takes the first file content, then grows by list
addition in file order. -/
def combineJsonFiles (docs : List JsonDoc) : Option (List Json) :=
  docs.foldl
    (fun results d =>
      match results with
      | none => some (loadList d)
      | some rs => some (rs ++ loadList d))
    none

/-- Accumulation over the headerless csv files of one pair, aws.py lines
304-310: pd.concat stacks the rows of successive files. -/
def combineCsvRows (tables : List (List (List String))) : Option (List (List String)) :=
  tables.foldl
    (fun results t =>
      match results with
      | none => some t
      | some rs => some (rs ++ t))
    none

theorem combineJsonFiles_go (docs : List JsonDoc) (acc : List Json) :
    docs.foldl
      (fun results d =>
        match results with
        | none => some (loadList d)
        | some rs => some (rs ++ loadList d))
      (some acc)
      = some (acc ++ (docs.map loadList).flatten) := by
  induction docs generalizing acc with
  | nil => simp
  | cons d ds ih => simp [List.foldl_cons, ih, List.append_assoc]

theorem combineJsonFiles_eq (docs : List JsonDoc) (h : docs ≠ []) :
    combineJsonFiles docs = some ((docs.map loadList).flatten) := by
  cases docs with
  | nil => exact absurd rfl h
  | cons d ds =>
    have hgo := combineJsonFiles_go ds (loadList d)
    simp only [combineJsonFiles, List.foldl_cons] at *
    rw [hgo]
    simp

/-- sorted(fs.glob(pattern)) applied to named file contents: the name-content
pairs sorted by file name. -/
def sortFilesByName (files : List (String × JsonDoc)) : List (String × JsonDoc) :=
  sortBy (fun a b => charsLe a.1.data b.1.data) files

/-- C3: the reducer concatenates the per-file lists in sorted file-name
order, so the combined length is the sum of the per-file lengths; a file
holding a list contributes exactly its list, and a file holding a mapping
contributes its truthy values with keys discarded. -/
theorem combineJson_sorted_concat (files : List (String × JsonDoc)) (h : files ≠ []) :
    combineJsonFiles ((sortFilesByName files).map Prod.snd)
      = some (((sortFilesByName files).map (fun p => loadList p.2)).flatten)
    ∧ (((sortFilesByName files).map (fun p => loadList p.2)).flatten).length
        = (((sortFilesByName files).map (fun p => (loadList p.2).length)).sum)
    ∧ (∀ xs : List Json, loadList (.arr xs) = xs)
    ∧ (∀ kvs : List (String × Json),
        loadList (.obj kvs) = (kvs.map Prod.snd).filter (fun v => truthy v)) := by
  refine ⟨?_, ?_, fun xs => rfl, fun kvs => rfl⟩
  · have hne : (sortFilesByName files).map Prod.snd ≠ [] := by
      intro hh
      apply h
      have hlen : ((sortFilesByName files).map Prod.snd).length = 0 := by
        rw [hh]
        rfl
      rw [List.length_map, sortFilesByName, length_sortBy] at hlen
      exact List.length_eq_zero.mp hlen
    rw [combineJsonFiles_eq _ hne, List.map_map]
    rfl
  · rw [List.length_flatten, List.map_map]
    rfl

/-- Concrete partition files for the C3 witness: one list file, one mapping
file with a falsy value to drop, with names out of sorted order. -/
def c3Files : List (String × JsonDoc) :=
  [("out/r_1.json", .arr [.num 2, .num 3]),
    ("out/r_0.json", .obj [("a", .num 1), ("b", .null)])]

/-- Witness for combineJson_sorted_concat at the concrete file set. -/
theorem combineJson_sorted_concat_witness :
    c3Files ≠ []
    ∧ combineJsonFiles ((sortFilesByName c3Files).map Prod.snd)
        = some (((sortFilesByName c3Files).map (fun p => loadList p.2)).flatten) :=
  ⟨by simp [c3Files], (combineJson_sorted_concat c3Files (by simp [c3Files])).1⟩

/-- Storage-backend operations used by combine_parallel_results: existence
check, glob, and the parsed contents behind fs.open for each extension. -/
structure ReduceFS where
  existsPath : String → Bool
  glob : String → List String
  readJson : String → JsonDoc
  readCsv : String → List (List String)

/-- Combined artifact written by the reducer for one (tag, extension) pair. -/
inductive Artifact where
  | jsonArt (content : List Json)
  | csvArt (rows : List (List String))

/-- Glob pattern of one pair, aws.py line 273. -/
def pairPattern (output_folder tag extension : String) : String :=
  output_folder ++ "/" ++ tag ++ "*" ++ extension

/-- The two fixed (tag, extension) pairs, aws.py lines 266-267 and 270. -/
def tagPairs (flavor : String) : List (String × String) :=
  [(flavor ++ "_results", ".json"), (flavor ++ "_input", ".csv")]

/-- os.path.normpath segment processing for the relative paths appearing
here: empty and single-dot segments are dropped and a dot-dot segment pops
the preceding one. -/
def normStack : List (List Char) → List (List Char) → List (List Char)
  | stack, [] => stack.reverse
  | stack, seg :: rest =>
    if seg = [] ∨ seg = ['.'] then normStack stack rest
    else if seg = ['.', '.'] then
      match stack with
      | [] => normStack [['.', '.']] rest
      | top :: bot =>
        if top = ['.', '.'] then normStack (seg :: stack) rest
        else normStack bot rest
    else normStack (seg :: stack) rest

/-- os.path.normpath on a relative path, returning a single dot for an empty
result as Python does. -/
def normpathStr (s : String) : String :=
  match normStack [] (splitSlash s.data) with
  | [] => "."
  | segs => String.mk (joinSlash segs)

/-- Artifact path of one pair, aws.py lines 312-316: the parent of the
output folder plus tag and extension, stripped of a leading s3://, then
normalized and re-qualified with s3://. -/
def outputFilename (output_folder tag extension : String) : String :=
  let filename := output_folder ++ "/../" ++ tag ++ extension
  let stripped := if filename.startsWith "s3://" then filename.drop 5 else filename
  "s3://" ++ normpathStr stripped

/-- Error text of the ValueError raised at aws.py lines 276-279 when a glob
matches no files. -/
def noFilesMsg (dataset flavor output_folder : String) : String :=
  "No files found for dataset \x27" ++ dataset ++ "\x27 and kind \x27" ++ flavor
    ++ "\x27 in output folder \x27" ++ output_folder ++ "\x27"

/-- Per-pair loop of combine_parallel_results, aws.py lines 270-329: for each
pair glob and sort the partition files, fail on an empty match, otherwise
combine them and write one artifact, then continue with the next pair.
Returns the artifacts written, in order, beside the first error raised. The
guard makes the combined Option nonempty, so getD never takes its default. -/
def reducePairs (fs : ReduceFS) (dataset flavor output_folder : String) :
    List (String × String) → List (String × Artifact) × Except PyErr Unit
  | [] => ([], .ok ())
  | (tag, extension) :: rest =>
    let files := sortStrings (fs.glob (pairPattern output_folder tag extension))
    if files.length = 0 then
      ([], .error (.valueError (noFilesMsg dataset flavor output_folder)))
    else
      let art : Artifact :=
        if extension = ".json" then
          .jsonArt ((combineJsonFiles (files.map fs.readJson)).getD [])
        else
          .csvArt ((combineCsvRows (files.map fs.readCsv)).getD [])
      let out := reducePairs fs dataset flavor output_folder rest
      ((outputFilename output_folder tag extension, art) :: out.1, out.2)

/-- AWS.combine_parallel_results, aws.py lines 250-331. The cache
invalidation at line 254 has no observable effect in the model; data_file is
the artifact path of the first pair, returned once every pair succeeded. -/
def combineParallelResults (fs : ReduceFS) (flavor dataset output_folder : String) :
    List (String × Artifact) × Except PyErr String :=
  if fs.existsPath output_folder = true then
    match reducePairs fs dataset flavor output_folder (tagPairs flavor) with
    | (ws, .error e) => (ws, .error e)
    | (ws, .ok _) =>
      (ws, .ok (outputFilename output_folder (flavor ++ "_results") ".json"))
  else
    ([], .error (.fileNotFound
      ("Output folder does not exist for parallel results: \x27" ++ output_folder ++ "\x27")))

/-- C6: a (tag, extension) pair whose glob matches zero files makes the
reduction fail with the no-partition-files ValueError; no artifact is
written for that pair and later pairs are not attempted - no artifact at all
when the json pair fails first, and exactly the json artifact when the csv
pair fails. -/
theorem combine_missing_partition_files (fs : ReduceFS)
    (flavor dataset output_folder : String)
    (hex : fs.existsPath output_folder = true)
    (h : fs.glob (pairPattern output_folder (flavor ++ "_results") ".json") = []
      ∨ (fs.glob (pairPattern output_folder (flavor ++ "_results") ".json") ≠ []
        ∧ fs.glob (pairPattern output_folder (flavor ++ "_input") ".csv") = [])) :
    (combineParallelResults fs flavor dataset output_folder).2
        = .error (.valueError (noFilesMsg dataset flavor output_folder))
    ∧ ((combineParallelResults fs flavor dataset output_folder).1).map Prod.fst
        = (if fs.glob (pairPattern output_folder (flavor ++ "_results") ".json") = []
          then ([] : List String)
          else [outputFilename output_folder (flavor ++ "_results") ".json"]) := by
  rcases h with h0 | ⟨h0, h1⟩
  · simp [combineParallelResults, hex, reducePairs, tagPairs, h0, sortStrings, sortBy]
  · have hne : sortBy (fun a b => charsLe a.data b.data)
        (fs.glob (pairPattern output_folder (flavor ++ "_results") ".json")) ≠ [] := by
      intro hc
      apply h0
      have hl := congrArg List.length hc
      rw [length_sortBy] at hl
      exact List.length_eq_zero.mp hl
    simp [combineParallelResults, hex, reducePairs, tagPairs, h0, h1, hne,
      sortStrings, sortBy]

/-- Storage backend whose glob matches nothing anywhere, for the C6 witness. -/
def c6FS : ReduceFS :=
  { existsPath := fun _ => true
    glob := fun _ => []
    readJson := fun _ => .arr []
    readCsv := fun _ => [] }

/-- Witness for combine_missing_partition_files where the first pair already
matches zero files. -/
theorem combine_missing_partition_files_witness :
    c6FS.existsPath "out/f/chunks" = true
    ∧ c6FS.glob (pairPattern "out/f/chunks" ("court" ++ "_results") ".json") = []
    ∧ (combineParallelResults c6FS "court" "d" "out/f/chunks").2
        = .error (.valueError (noFilesMsg "d" "court" "out/f/chunks")) :=
  ⟨rfl, rfl,
    (combine_missing_partition_files c6FS "court" "d" "out/f/chunks" rfl (Or.inl rfl)).1⟩

/-- Modification-time maps of the two storage realms, the state AWS.sync
reads and writes. Remote paths are bucket-qualified without the s3:// mark,
the way s3fs lists and addresses them; local paths are relative to HOME_DIR,
matching the relativization at aws.py lines 372, 380 and 388 (the model
takes local path arguments already relativized, and the local listing is
taken with the working directory at HOME_DIR as the source presumes when it
hands relative paths to pathlib). -/
structure SyncFS where
  remote : List (List Char × Nat)
  loc : List (List Char × Nat)
deriving DecidableEq

/-- Modification time of a path in one realm, none when the file is absent. -/
def lookupMTime (m : List (List Char × Nat)) (p : List Char) : Option Nat :=
  (m.find? (fun e => e.1 == p)).map Prod.snd

/-- Writing a file stamps it with the current time, creating it if needed. -/
def setMTime (m : List (List Char × Nat)) (p : List Char) (t : Nat) :
    List (List Char × Nat) :=
  if (m.find? (fun e => e.1 == p)).isSome then
    m.map (fun e => if e.1 == p then (p, t) else e)
  else
    m ++ [(p, t)]

/-- Destination path of one source file, aws.py lines 390-394: drop the
first slash-separated segment of the source file path and re-root the rest
under dest. -/
def destPathFor (dest sourceFile : List Char) : List Char :=
  dest ++ '/' :: joinSlash ((splitSlash sourceFile).tail)

/-- str(Path(p)) for the relative paths appearing here: pathlib drops empty
and single-dot segments and keeps the rest. -/
def pyPathStr (p : List Char) : List Char :=
  joinSlash ((splitSlash p).filter (fun seg => !(seg == [] || seg == ['.'])))

/-- Copy decision, aws.py lines 397-399: not Path(dest_file).exists() or
source modified greater than dest modified. Path(...) inspects the local
realm whatever the sync direction; the modified comparison is reached only
when that local check finds the file, and dest_fs.modified raises when the
destination is then absent from the destination realm. srcMt is the source
mtime, total because the file came from the source realm listing. -/
def copyDecision (fs : SyncFS) (srcMt : Nat) (dstMt : Option Nat)
    (destFile : List Char) : Except PyErr Bool :=
  if (lookupMTime fs.loc (pyPathStr destFile)).isSome = false then .ok true
  else
    match dstMt with
    | some t => .ok (decide (srcMt > t))
    | none => .error (.fileNotFound "destination file does not exist")

/-- Per-file loop of AWS.sync, aws.py lines 384-407. fromAws selects the
direction, dryRun suppresses the writes, and now is the wall-clock stamp a
copied destination file receives. Returns the final state beside the
(source, destination) pairs logged as synced, in processing order. -/
def syncLoop (fromAws : Bool) (dest : List Char) (dryRun : Bool) (now : Nat) :
    SyncFS → List (List Char) → Except PyErr (SyncFS × List (List Char × List Char))
  | fs, [] => .ok (fs, [])
  | fs, f :: rest =>
    match copyDecision fs
        ((lookupMTime (if fromAws then fs.remote else fs.loc) f).getD 0)
        (if fromAws then lookupMTime fs.loc (destPathFor dest f)
          else lookupMTime fs.remote ((destPathFor dest f).drop 5))
        (destPathFor dest f) with
    | .error e => .error e
    | .ok false => syncLoop fromAws dest dryRun now fs rest
    | .ok true =>
      match syncLoop fromAws dest dryRun now
          (if dryRun then fs
            else if fromAws then
              { fs with loc := setMTime fs.loc (destPathFor dest f) now }
            else
              { fs with remote := setMTime fs.remote ((destPathFor dest f).drop 5) now })
          rest with
      | .error e => .error e
      | .ok out => .ok (out.1, (f, destPathFor dest f) :: out.2)

/-- AWS.sync, aws.py lines 333-407. Direction detection follows lines
357-364: a source carrying the s3:// mark syncs remote to local, otherwise a
dest carrying it syncs local to remote, otherwise ValueError. File discovery
models fs.find as the sorted realm paths strictly under the source root. -/
def sync (fs : SyncFS) (source dest : List Char) (dryRun : Bool) (now : Nat) :
    Except PyErr (SyncFS × List (List Char × List Char)) :=
  if s3Head.isPrefixOf source then
    syncLoop true dest dryRun now fs
      (sortPaths ((fs.remote.map Prod.fst).filter
        (fun p => (source.drop 5 ++ ['/']).isPrefixOf p)))
  else if s3Head.isPrefixOf dest then
    syncLoop false dest dryRun now fs
      (sortPaths ((fs.loc.map Prod.fst).filter
        (fun p => (source ++ ['/']).isPrefixOf p)))
  else
    .error (.valueError "One of source or dest should start with s3://")

/-- State for C4: the remote destination file already exists and is newer
(mtime 9) than its local source (mtime 5). -/
def c4FS : SyncFS :=
  { remote := [("bucket/out/f.txt".data, 9)], loc := [("proj/f.txt".data, 5)] }

/-- C4: sync copies a file whose destination exists with a modification time
greater than the source's. In the local-to-remote direction the existence
test Path(dest_file).exists() inspects the local realm at the path
s3:/bucket/out/f.txt, which is absent there, so proj/f.txt is copied even
though the remote destination carries mtime 9, newer than the source's 5. -/
theorem sync_copies_despite_fresh_dest :
    lookupMTime c4FS.loc "proj/f.txt".data = some 5
    ∧ lookupMTime c4FS.remote "bucket/out/f.txt".data = some 9
    ∧ 5 ≤ 9
    ∧ sync c4FS "proj".data "s3://bucket/out".data false 12
        = .ok ({ remote := [("bucket/out/f.txt".data, 12)], loc := [("proj/f.txt".data, 5)] },
              [("proj/f.txt".data, "s3://bucket/out/f.txt".data)]) :=
  ⟨rfl, rfl, by decide, rfl⟩

/-- States for C5: before any run, after the first run, after the second. -/
def c5FS : SyncFS := { remote := [], loc := [("proj/g.txt".data, 5)] }

def c5FS1 : SyncFS :=
  { remote := [("bucket/out/g.txt".data, 10)], loc := [("proj/g.txt".data, 5)] }

def c5FS2 : SyncFS :=
  { remote := [("bucket/out/g.txt".data, 11)], loc := [("proj/g.txt".data, 5)] }

/-- C5: sync is not idempotent. With the source unchanged between runs, the
first local-to-remote run copies proj/g.txt and an immediately repeated run
copies it again - one copy, not zero - because the destination existence
test never sees the remote file. -/
theorem sync_second_run_copies_again :
    sync c5FS "proj".data "s3://bucket/out".data false 10
      = .ok (c5FS1, [("proj/g.txt".data, "s3://bucket/out/g.txt".data)])
    ∧ sync c5FS1 "proj".data "s3://bucket/out".data false 11
      = .ok (c5FS2, [("proj/g.txt".data, "s3://bucket/out/g.txt".data)])
    ∧ [("proj/g.txt".data, "s3://bucket/out/g.txt".data)].length ≠ 0 :=
  ⟨rfl, rfl, by decide⟩

/-- State for C9: the remote destination file is newer (mtime 7) than its
local source counterpart (mtime 3). -/
def c9FS : SyncFS :=
  { remote := [("bucket/data/h.txt".data, 7)], loc := [("work/h.txt".data, 3)] }

/-- C9: sync overwrites a destination file that is neither missing nor older
than its source: bucket/data/h.txt has mtime 7 against source mtime 3, yet
the local-to-remote run rewrites it, restamping it to mtime 20. -/
theorem sync_overwrites_newer_dest :
    lookupMTime c9FS.remote "bucket/data/h.txt".data = some 7
    ∧ lookupMTime c9FS.loc "work/h.txt".data = some 3
    ∧ 3 < 7
    ∧ sync c9FS "work".data "s3://bucket/data".data false 20
        = .ok ({ remote := [("bucket/data/h.txt".data, 20)], loc := [("work/h.txt".data, 3)] },
              [("work/h.txt".data, "s3://bucket/data/h.txt".data)]) :=
  ⟨rfl, rfl, by decide, rfl⟩

/-- State for the C8 counterexample: one remote file under the two-segment
source root bucket/a/b. -/
def c8FS : SyncFS := { remote := [("bucket/a/b/f.txt".data, 5)], loc := [] }

/-- C8 counterexample: syncing the remote root s3://bucket/a/b down to dst
places bucket/a/b/f.txt at dst/a/b/f.txt - only the first segment, the
bucket, is stripped - and not at dst/f.txt, which is where a mirror of the
source tree relative to the source root would put it. -/
theorem sync_dest_path_counterexample :
    sync c8FS "s3://bucket/a/b".data "dst".data false 9
      = .ok ({ remote := [("bucket/a/b/f.txt".data, 5)], loc := [("dst/a/b/f.txt".data, 9)] },
            [("bucket/a/b/f.txt".data, "dst/a/b/f.txt".data)])
    ∧ "dst/a/b/f.txt".data ≠ "dst/f.txt".data :=
  ⟨rfl, by decide⟩

theorem syncLoop_copies_destPath (fromAws : Bool) (dest : List Char)
    (dryRun : Bool) (now : Nat) (files : List (List Char)) (fs : SyncFS)
    (out : SyncFS × List (List Char × List Char))
    (h : syncLoop fromAws dest dryRun now fs files = .ok out) :
    ∀ pr ∈ out.2, pr.2 = destPathFor dest pr.1 := by
  induction files generalizing fs out with
  | nil =>
    simp only [syncLoop, Except.ok.injEq] at h
    rw [← h]
    intro pr hpr
    simp at hpr
  | cons f rest ih =>
    simp only [syncLoop] at h
    split at h
    · cases h
    · exact ih _ _ h
    · split at h
      · cases h
      · rename_i out2 heq
        rw [Except.ok.injEq] at h
        rw [← h]
        intro pr hpr
        rcases List.mem_cons.mp hpr with hpr | hpr
        · rw [hpr]
        · exact ih _ _ heq pr hpr

/-- C8 amended: every file sync copies lands at dest joined with the source
file path minus its first slash-separated segment, so the destination tree
mirrors the source tree relative to the source root exactly when the
(realm-stripped) source root is a single segment, such as a bare bucket or a
single folder under the home directory. -/
theorem sync_dest_path_tail_key :
    (∀ fs source dest dryRun now out,
      sync fs source dest dryRun now = .ok out →
      ∀ pr ∈ out.2, pr.2 = destPathFor dest pr.1)
    ∧ (∀ dest root rest : List Char, '/' ∉ root →
        destPathFor dest (root ++ '/' :: rest) = dest ++ '/' :: rest) := by
  constructor
  · intro fs source dest dryRun now out h
    simp only [sync] at h
    split at h
    · exact syncLoop_copies_destPath _ _ _ _ _ _ _ h
    · split at h
      · exact syncLoop_copies_destPath _ _ _ _ _ _ _ h
      · cases h
  · intro dest root rest h
    unfold destPathFor
    rw [splitSlash_append_noslash root rest h, List.tail_cons, joinSlash_splitSlash]

/-- Witness for sync_dest_path_tail_key: the concrete C8 run satisfies the
per-copy destination law, and a single-segment root mirrors. -/
theorem sync_dest_path_tail_key_witness :
    '/' ∉ "bucket".data
    ∧ destPathFor "dst".data ("bucket".data ++ '/' :: "f.txt".data)
        = "dst".data ++ '/' :: "f.txt".data
    ∧ ("dst/a/b/f.txt".data : List Char)
        = destPathFor "dst".data "bucket/a/b/f.txt".data :=
  ⟨by decide,
    sync_dest_path_tail_key.2 "dst".data "bucket".data "f.txt".data (by decide),
    sync_dest_path_tail_key.1 c8FS "s3://bucket/a/b".data "dst".data false 9 _ rfl
      ("bucket/a/b/f.txt".data, "dst/a/b/f.txt".data) (by decide)⟩
